import Mathlib

/-!
# Verification of `samples/MultipleReadPropertyForeign.py`

Shallow embedding of the point-reading foreign-device client: a static list
of points is read one at a time after foreign-device registration succeeds,
driven by two cooperating state machines:

* `ReadPointListApplication` — the sequential request driver
  (`next_request` / `complete_request`);
* `PrairieDog` — the recurring registration-poll task (`process_task`).

The embedding models the handlers directly from the source and wires them
into a small deterministic event-loop interpreter (`runSys`) that mirrors
the bacpypes core loop: pending `deferred(...)` continuations run first,
then a completion for the head in-flight request is delivered by the
protocol stack, then the recurring task ticks.  External collaborators
(registration status over time, the per-point protocol responses, and the
`get_datatype` registry) are parameters gathered in `Env`.
-/

namespace MRPF

/-- A configured point descriptor: `(address, object-identifier text,
property-identifier)` triple, exactly the tuples of `point_list`. -/
structure Point where
  addr : String
  objId : String
  propId : String
deriving DecidableEq, Repr

/-- Opaque raw encoded payload carried by `apdu.propertyValue`. -/
abbrev Payload := String

/-- Opaque protocol-error descriptor (`iocb.ioError`). -/
abbrev ErrDesc := String

/-- The datatype descriptors the registry can return: either an atomic
class or an `Array` subclass with its `subtype` element class
(`issubclass(datatype, Array)` holds exactly on `arrayOf`). -/
inductive BacDatatype
  | atomic (name : String)
  | arrayOf (subtype : BacDatatype)
deriving DecidableEq, Repr

/-- The `Unsigned` primitive class used for array-count decoding. -/
def Unsigned : BacDatatype := .atomic "Unsigned"

/-- `datatype.subtype`: only meaningful on `arrayOf`, as in the source
where it is accessed only under `issubclass(datatype, Array)`. -/
def BacDatatype.subtype : BacDatatype → BacDatatype
  | .atomic n => .atomic n
  | .arrayOf s => s

/-- A decoded value: `cast_out(dt)` interprets the raw payload using the
encoding rules of class `dt`; we record which class was used together with
the payload, which is exactly the information this program controls. -/
structure DecodedVal where
  decodedAs : BacDatatype
  raw : Payload
deriving DecidableEq, Repr

/-- `apdu.propertyValue.cast_out(dt)` — the collaborator decode. -/
def cast_out (dt : BacDatatype) (pl : Payload) : DecodedVal := ⟨dt, pl⟩

/-- The fields of a successful `ReadPropertyACK` consulted by
`complete_request`: `apdu.objectIdentifier[0]`, `apdu.propertyIdentifier`,
`apdu.propertyArrayIndex`, `apdu.propertyValue`. -/
structure APDU where
  objectType : String
  propertyIdentifier : String
  propertyArrayIndex : Option Nat
  propertyValue : Payload
deriving DecidableEq, Repr

/-- An IOCB completion as delivered by the stack: exactly one of
`ioResponse` (a successful application response) or `ioError` (a
protocol-level error) is set — the IOCB collaborator's contract. -/
inductive Completion
  | response (apdu : APDU)
  | ioErr (e : ErrDesc)
deriving DecidableEq, Repr

/-- An entry of `response_values`: either a decoded value or the recorded
protocol error object. -/
inductive Outcome
  | decodedValue (v : DecodedVal)
  | protocolError (e : ErrDesc)
deriving DecidableEq, Repr

/-- The `get_datatype` registry collaborator:
`(object-type, property-id) → datatype or unknown`. -/
abbrev Registry := String → String → Option BacDatatype

/-- Lines 100–107: the decode dispatch of `complete_request`.
`if issubclass(datatype, Array) and (apdu.propertyArrayIndex is not None):
  index 0 → cast_out(Unsigned), other index → cast_out(datatype.subtype)
else: cast_out(datatype)`. -/
def decodeValue (datatype : BacDatatype) (idx : Option Nat) (pl : Payload) :
    DecodedVal :=
  match datatype, idx with
  | .arrayOf sub, some i =>
      if i = 0 then cast_out Unsigned pl else cast_out sub pl
  | dt, _ => cast_out dt pl

/-- Lines 88–115 of `ReadPointListApplication.complete_request`, as the pure
outcome-recording part: given the completion and the current
`response_values`, return the updated list, or `Except.error` for the
`raise TypeError("unknown datatype")` path (line 98), in which case nothing
is appended and the handler aborts before reaching `deferred(next_request)`. -/
def complete_request (get_datatype : Registry) (c : Completion)
    (response_values : List Outcome) : Except String (List Outcome) :=
  match c with
  | .response apdu =>
      match get_datatype apdu.objectType apdu.propertyIdentifier with
      | none => .error "unknown datatype"
      | some datatype =>
          .ok (response_values ++
            [.decodedValue
              (decodeValue datatype apdu.propertyArrayIndex apdu.propertyValue)])
  | .ioErr e => .ok (response_values ++ [.protocolError e])

/-- External collaborators of the run: the registration status observed at
the n-th poll (`this_application.bip.registrationStatus`, `0` = success),
the completion the protocol stack delivers for each submitted point, and
the datatype registry. -/
structure Env where
  regStatus : Nat → Int
  respond : Point → Completion
  get_datatype : Registry

/-- Observable events of a run, in order of occurrence. -/
inductive Ev
  | submit (p : Point)
  | complete (p : Point)
  | crash (p : Point)
  | pollFail
  | pollSucc
  | diag
  | stopEvt
deriving DecidableEq, Repr

/-- The whole-program state:
`point_queue`/`response_values` are the driver's fields; `inFlight` is the
list of submitted-but-uncompleted requests (their IOCBs); `taskActive` is
whether the `PrairieDog` recurring task is installed; `decay` its counter
(a Python number: `5 * 1000 / interval` is true division); `pollCount`
indexes the registration-status observations; `deferredQ` counts pending
`deferred(next_request)` continuations; `stopped` is the core-loop flag set
by `stop()`. -/
structure SysState where
  point_queue : List Point
  response_values : List Outcome
  inFlight : List Point
  taskActive : Bool
  decay : ℚ
  pollCount : Nat
  deferredQ : Nat
  stopped : Bool
deriving DecidableEq, Repr

/-- Lines 57–86, `ReadPointListApplication.next_request`: if the queue is
empty call `stop()`; otherwise pop the head point, build and submit its
read request (one more in-flight IOCB).  Note: the source has no re-entry
guard — the function never inspects whether a request is in flight. -/
def next_request (s : SysState) : SysState × List Ev :=
  match s.point_queue with
  | [] => ({ s with stopped := true }, [.stopEvt])
  | p :: rest =>
      ({ s with point_queue := rest, inFlight := s.inFlight ++ [p] },
       [.submit p])

/-- Delivery of the completion for the head in-flight request: the stack
triggers the IOCB callback `complete_request`; on normal return the handler
has appended one outcome and called `deferred(self.next_request)` (line
118); on the `raise` path nothing is appended and the deferred call is
never reached. -/
def deliverCompletion (env : Env) (s : SysState) : SysState × List Ev :=
  match s.inFlight with
  | [] => (s, [])
  | p :: rest =>
      match complete_request env.get_datatype (env.respond p)
          s.response_values with
      | .ok rv =>
          ({ s with inFlight := rest, response_values := rv,
                    deferredQ := s.deferredQ + 1 }, [.complete p])
      | .error _ => ({ s with inFlight := rest }, [.crash p])

/-- Lines 134–154, `PrairieDog.process_task`: if
`registrationStatus == 0` then `deferred(next_request)` and
`suspend_task()`; otherwise `decay -= 1` and, when `decay == 0`, write the
diagnostic to stderr and `stop()`. -/
def process_task (env : Env) (s : SysState) : SysState × List Ev :=
  if env.regStatus s.pollCount = 0 then
    ({ s with taskActive := false, deferredQ := s.deferredQ + 1,
              pollCount := s.pollCount + 1 }, [.pollSucc])
  else
    let d := s.decay - 1
    if d = 0 then
      ({ s with decay := d, pollCount := s.pollCount + 1, stopped := true },
       [.pollFail, .diag, .stopEvt])
    else
      ({ s with decay := d, pollCount := s.pollCount + 1 }, [.pollFail])

/-- One scheduling decision of the core loop (`bacpypes.core.run`): pending
`deferred` continuations run first, then stack I/O delivers the completion
of the oldest in-flight request, then the recurring task ticks.  (In the
scenarios of interest the three sources are never simultaneously ready in a
way that changes the observable order: polling stops before dispatch
begins.) -/
def sysStep (env : Env) (s : SysState) : SysState × List Ev :=
  if s.stopped then (s, [])
  else if s.deferredQ ≠ 0 then
    next_request { s with deferredQ := s.deferredQ - 1 }
  else if s.inFlight ≠ [] then deliverCompletion env s
  else if s.taskActive then process_task env s
  else (s, [])

/-- The loop has nothing left to do: stopped, or no continuation, no
in-flight request and no active task. -/
def SysState.idle (s : SysState) : Bool :=
  s.stopped || (s.deferredQ == 0 && s.inFlight.isEmpty && !s.taskActive)

/-- Fuel-bounded run of the event loop, collecting the trace. -/
def runSys (env : Env) : Nat → SysState → SysState × List Ev
  | 0, s => (s, [])
  | fuel + 1, s =>
      if s.idle then (s, [])
      else
        let r := sysStep env s
        let r2 := runSys env fuel r.1
        (r2.1, r.2 ++ r2.2)

/-- Line 129: `self.decay = 5 * 1000 / interval` (Python 3 true division). -/
def decayInit (interval : ℚ) : ℚ := 5 * 1000 / interval

/-- The state after `main` has built the application over `point_list` and
installed `PrairieDog(500)`, just before `run()`. -/
def initState (ps : List Point) : SysState :=
  { point_queue := ps, response_values := [], inFlight := [],
    taskActive := true, decay := decayInit 500, pollCount := 0,
    deferredQ := 0, stopped := false }

/-- Fuel sufficient for a run whose registration succeeds at poll `k`:
`k` failed polls, the success poll, one submit step and one completion
step per point, and the final stopping turn. -/
def successFuel (k : Nat) (ps : List Point) : Nat :=
  (k + 1) + (2 * ps.length + 1)

/-- The outcome `complete_request` appends for point `p`'s completion
(meaningful when the completion is an error or its datatype resolves). -/
def outcomeOf (env : Env) (p : Point) : Outcome :=
  match env.respond p with
  | .ioErr e => .protocolError e
  | .response apdu =>
      match env.get_datatype apdu.objectType apdu.propertyIdentifier with
      | some dt =>
          .decodedValue (decodeValue dt apdu.propertyArrayIndex
            apdu.propertyValue)
      | none => .protocolError "unknown datatype"

/-- `p`'s completion can be processed without hitting the
`raise TypeError("unknown datatype")` path. -/
def decodableB (env : Env) (p : Point) : Bool :=
  match env.respond p with
  | .ioErr _ => true
  | .response apdu =>
      (env.get_datatype apdu.objectType apdu.propertyIdentifier).isSome

/-- Trace of the driver phase over pending points `ps`: one submission then
one completion per point, in list order, then the final `stop()`. -/
def driverTrace (ps : List Point) : List Ev :=
  (ps.flatMap fun p => [.submit p, .complete p]) ++ [.stopEvt]

/-- Lines 186–188 of `main`: `for request, response in
zip(point_list, this_application.response_values): print(request, response)`.
Python's `zip` truncates to the shorter sequence; the value is the list of
printed pairs. -/
def dumpResults (ps : List Point) (rs : List Outcome) :
    List (Point × Outcome) := ps.zip rs

/-- `Ev.submit` projection used to read the submitted descriptors, in
order, out of a trace. -/
def submitOf : Ev → Option Point
  | .submit p => some p
  | _ => none

/-! Concrete instances used to exercise the theorems on explicit inputs. -/

/-- First point of the sample's `point_list`. -/
def pA : Point := ⟨"10.0.1.14", "analogValue:1", "presentValue"⟩

/-- Second point of the sample's `point_list`. -/
def pB : Point := ⟨"10.0.1.14", "analogValue:2", "presentValue"⟩

/-- A registry resolving exactly `(analogValue, presentValue)`. -/
def regAV : Registry := fun ot prop =>
  if ot = "analogValue" && prop = "presentValue" then some (.atomic "Real")
  else none

/-- Environment where registration succeeds at the second poll and every
point answers with a resolvable `presentValue` response. -/
def envOk : Env :=
  ⟨fun i => if i = 0 then 1 else 0,
   fun p => .response ⟨"analogValue", "presentValue", none, p.objId⟩,
   regAV⟩

/-- Environment where registration never succeeds. -/
def envDown : Env :=
  ⟨fun _ => 1,
   fun p => .response ⟨"analogValue", "presentValue", none, p.objId⟩,
   regAV⟩

/-- A response whose `(object-type, property)` pair `regAV` cannot resolve. -/
def apduU : APDU := ⟨"binaryOutput", "zebraProp", none, "rawU"⟩

/-- Environment whose responses all carry the unresolvable pair. -/
def envU : Env := ⟨fun _ => 0, fun _ => .response apduU, regAV⟩

/-- Environment whose responses are all protocol errors. -/
def envErr : Env := ⟨fun _ => 0, fun _ => .ioErr "abort(noResponse)", regAV⟩

/-- Mid-run state with `pA` in flight and nothing else pending. -/
def sC2 : SysState := ⟨[], [], [pA], false, 9, 2, 0, false⟩

/-- Mid-run state with `pA` in flight and `pB` still queued. -/
def sC7 : SysState := ⟨[pB], [], [pA], false, 9, 2, 0, false⟩

/-- Mid-run state with `pA` awaiting its response and `pB` still queued:
the state in which a re-entrant `advance()` would be a design violation. -/
def sReent : SysState := ⟨[pB], [], [pA], false, 9, 3, 0, false⟩

/-! ## Infrastructure lemmas about the event-loop interpreter -/

/-- An idle state is a fixed point of the loop, for any fuel. -/
theorem runSys_idle (env : Env) (f : Nat) (s : SysState)
    (h : s.idle = true) : runSys env f s = (s, []) := by
  cases f <;> simp [runSys, h]

/-- Fuel composes: running `a + b` steps is running `a` then `b`. -/
theorem runSys_add (env : Env) (a b : Nat) (s : SysState) :
    runSys env (a + b) s =
      ((runSys env b (runSys env a s).1).1,
       (runSys env a s).2 ++ (runSys env b (runSys env a s).1).2) := by
  induction a generalizing s with
  | zero => simp [runSys]
  | succ a ih =>
      by_cases h : s.idle
      · rw [runSys_idle env (a + 1 + b) s h, runSys_idle env (a + 1) s h,
          runSys_idle env b s h]
        simp
      · rw [show a + 1 + b = (a + b) + 1 from by omega]
        simp only [runSys, h, Bool.false_eq_true, if_false]
        rw [ih]
        simp [List.append_assoc]

/-- When `p`'s completion is processable, `complete_request` returns
normally and appends exactly `outcomeOf env p`. -/
theorem complete_request_ok (env : Env) (p : Point) (rv : List Outcome)
    (h : decodableB env p = true) :
    complete_request env.get_datatype (env.respond p) rv =
      .ok (rv ++ [outcomeOf env p]) := by
  unfold decodableB at h
  unfold complete_request outcomeOf
  cases hr : env.respond p with
  | ioErr e => simp
  | response apdu =>
      rw [hr] at h
      cases hd : env.get_datatype apdu.objectType apdu.propertyIdentifier with
      | none => simp [hd] at h
      | some dt => simp [hd]

/-- Driver phase: from a state where the monitor is suspended and exactly
one `next_request` continuation is pending, the loop performs one
submit/complete round per queued point, in order, appends the matching
outcomes, and stops. -/
theorem driver_run (env : Env) (ps : List Point) (rv : List Outcome)
    (d : ℚ) (c : Nat)
    (hdec : ∀ p ∈ ps, decodableB env p = true) :
    runSys env (2 * ps.length + 1) ⟨ps, rv, [], false, d, c, 1, false⟩ =
      (⟨[], rv ++ ps.map (outcomeOf env), [], false, d, c, 0, true⟩,
       driverTrace ps) := by
  induction ps generalizing rv with
  | nil =>
      simp [runSys, sysStep, next_request, SysState.idle, driverTrace]
  | cons p ps ih =>
      have hp : decodableB env p = true := hdec p (List.mem_cons_self p ps)
      have hps : ∀ q ∈ ps, decodableB env q = true := fun q hq =>
        hdec q (List.mem_cons_of_mem p hq)
      rw [show 2 * (p :: ps).length + 1 = 2 + (2 * ps.length + 1) from by
        simp [List.length_cons]; omega]
      rw [runSys_add]
      have hstep : runSys env 2 ⟨p :: ps, rv, [], false, d, c, 1, false⟩ =
          (⟨ps, rv ++ [outcomeOf env p], [], false, d, c, 1, false⟩,
           [.submit p, .complete p]) := by
        simp [runSys, sysStep, SysState.idle, next_request, deliverCompletion,
          complete_request_ok env p rv hp]
      rw [hstep, ih (rv ++ [outcomeOf env p]) hps]
      simp [driverTrace, List.append_assoc]

/-- Poll phase ending in success: `k` unsuccessful polls (with enough decay
budget left) followed by the success observation; the monitor defers one
driver turn and suspends itself. -/
theorem poll_run_succ (env : Env) (k : Nat) (c : Nat) (d : ℚ)
    (ps : List Point) (rv : List Outcome)
    (hfail : ∀ i, i < k → env.regStatus (c + i) ≠ 0)
    (hsucc : env.regStatus (c + k) = 0)
    (hd : (k : ℚ) < d) :
    runSys env (k + 1) ⟨ps, rv, [], true, d, c, 0, false⟩ =
      (⟨ps, rv, [], false, d - k, c + k + 1, 1, false⟩,
       List.replicate k .pollFail ++ [.pollSucc]) := by
  induction k generalizing c d with
  | zero =>
      simp only [Nat.add_zero] at hsucc
      simp [runSys, sysStep, SysState.idle, process_task, hsucc]
  | succ k ih =>
      have h0 : env.regStatus c ≠ 0 := by
        simpa using hfail 0 (Nat.succ_pos k)
      have hk1 : ((k : ℚ) + 1) < d := by push_cast at hd; linarith
      have hne : d - 1 ≠ 0 := by
        have hk0 : (0 : ℚ) ≤ (k : ℚ) := Nat.cast_nonneg k
        intro hcon
        have : d = 1 := by linarith
        rw [this] at hk1
        linarith
      rw [show k + 1 + 1 = 1 + (k + 1) from by omega, runSys_add]
      have hstep : runSys env 1 ⟨ps, rv, [], true, d, c, 0, false⟩ =
          (⟨ps, rv, [], true, d - 1, c + 1, 0, false⟩, [.pollFail]) := by
        simp [runSys, sysStep, SysState.idle, process_task, h0, hne]
      rw [hstep]
      rw [ih (c + 1) (d - 1)
        (fun i hi => by
          have := hfail (i + 1) (by omega)
          simpa [Nat.add_assoc, Nat.add_comm 1 i] using this)
        (by simpa [Nat.add_assoc, Nat.add_comm 1 k] using hsucc)
        (by linarith)]
      have e1 : d - 1 - (k : ℚ) = d - ((k + 1 : ℕ) : ℚ) := by push_cast; ring
      have e2 : c + 1 + k + 1 = c + (k + 1) + 1 := by omega
      rw [e1, e2]
      simp [List.replicate_succ]

/-- Poll phase with no success in sight: starting with an integral decay
budget `n > 0`, the monitor polls `n` times, hits zero, writes the
diagnostic and stops the loop, never having dispatched anything. -/
theorem poll_run_fail (env : Env) (n : Nat) (c : Nat)
    (ps : List Point) (rv : List Outcome)
    (hn : 0 < n)
    (hfail : ∀ i, env.regStatus (c + i) ≠ 0) :
    runSys env n ⟨ps, rv, [], true, (n : ℚ), c, 0, false⟩ =
      (⟨ps, rv, [], true, 0, c + n, 0, true⟩,
       List.replicate (n - 1) .pollFail ++ [.pollFail, .diag, .stopEvt]) := by
  induction n generalizing c with
  | zero => omega
  | succ n ih =>
      have h0 : env.regStatus c ≠ 0 := by simpa using hfail 0
      rcases Nat.eq_zero_or_pos n with hz | hpos
      · subst hz
        simp [runSys, sysStep, SysState.idle, process_task, h0]
      · have hone : (1 : ℚ) ≤ (n : ℚ) := Nat.one_le_cast.mpr hpos
        have hne : ((1 + n : Nat) : ℚ) - 1 ≠ 0 := by
          push_cast
          intro hcon; linarith
        rw [show n + 1 = 1 + n from by omega, runSys_add]
        have hstep : runSys env 1
            ⟨ps, rv, [], true, ((1 + n : Nat) : ℚ), c, 0, false⟩ =
            (⟨ps, rv, [], true, (n : ℚ), c + 1, 0, false⟩, [.pollFail]) := by
          simp only [runSys, sysStep, SysState.idle, process_task]
          simp only [h0, hne]
          simp
        rw [hstep]
        rw [ih (c + 1) hpos (fun i => by
          have := hfail (i + 1)
          simpa [Nat.add_assoc, Nat.add_comm 1 i] using this)]
        have e2 : c + 1 + n = c + (1 + n) := by omega
        have e3 : 1 + n - 1 = (n - 1) + 1 := by omega
        rw [e2, e3]
        simp [List.replicate_succ]

/-- Whole successful run: `k < 10` failed polls, the success observation,
then one submit/complete round per configured point in order, then stop. -/
theorem success_run (env : Env) (ps : List Point) (k : Nat)
    (hfail : ∀ i, i < k → env.regStatus i ≠ 0)
    (hsucc : env.regStatus k = 0)
    (hk : k < 10)
    (hdec : ∀ p ∈ ps, decodableB env p = true) :
    runSys env (successFuel k ps) (initState ps) =
      (⟨[], ps.map (outcomeOf env), [], false, 10 - (k : ℚ), k + 1, 0, true⟩,
       List.replicate k .pollFail ++ [.pollSucc] ++ driverTrace ps) := by
  have hinit : initState ps = ⟨ps, [], [], true, 10, 0, 0, false⟩ := by
    simp only [initState, decayInit]
    norm_num
  rw [successFuel, hinit, runSys_add]
  rw [poll_run_succ env k 0 10 ps []
    (fun i hi => by simpa using hfail i hi) (by simpa using hsucc)
    (by exact_mod_cast hk)]
  rw [driver_run env ps [] (10 - (k : ℚ)) (0 + k + 1) hdec]
  have e2 : 0 + k + 1 = k + 1 := by omega
  rw [e2]
  simp [List.append_assoc]

/-- Whole failed run: registration never succeeds, the ten polls exhaust
the decay budget, the diagnostic is written and the loop stops with no
request ever submitted and no outcome recorded. -/
theorem failure_run (env : Env) (ps : List Point)
    (hfail : ∀ i, env.regStatus i ≠ 0) :
    runSys env 10 (initState ps) =
      (⟨ps, [], [], true, 0, 10, 0, true⟩,
       List.replicate 9 .pollFail ++ [.pollFail, .diag, .stopEvt]) := by
  have hinit : initState ps = ⟨ps, [], [], true, ((10 : Nat) : ℚ), 0, 0, false⟩ := by
    simp only [initState, decayInit]
    norm_num
  rw [hinit]
  have := poll_run_fail env 10 0 ps [] (by omega)
    (fun i => by simpa using hfail i)
  simpa using this

/-- The driver-phase trace contains no registration-poll events. -/
theorem pollSucc_notin_driverTrace (ps : List Point) :
    Ev.pollSucc ∉ driverTrace ps := by
  simp [driverTrace, List.mem_flatMap]

/-- The driver-phase trace contains no failed-poll events either. -/
theorem pollFail_notin_driverTrace (ps : List Point) :
    Ev.pollFail ∉ driverTrace ps := by
  simp [driverTrace, List.mem_flatMap]

/-- No request is submitted among poll events. -/
theorem submit_notin_replicate (p : Point) (k : Nat) :
    Ev.submit p ∉ List.replicate k Ev.pollFail := by
  simp [List.mem_replicate]

/-- The submitted descriptors of the driver phase are exactly the queued
points, in order. -/
theorem filterMap_submitOf_flat (ps : List Point) :
    (ps.flatMap fun p => [Ev.submit p, Ev.complete p]).filterMap submitOf
      = ps := by
  induction ps with
  | nil => simp
  | cons p ps ih => simp [submitOf, ih]

/-- Poll events project to no submitted descriptor. -/
theorem filterMap_submitOf_replicate (k : Nat) :
    (List.replicate k Ev.pollFail).filterMap submitOf = [] := by
  induction k with
  | zero => simp
  | succ k ih => simp [List.replicate_succ, submitOf, ih]

/-- Iterating the per-poll decrement `j` times subtracts `j`. -/
theorem iterate_sub_one (d : ℚ) (j : Nat) :
    (fun d : ℚ => d - 1)^[j] d = d - j := by
  induction j generalizing d with
  | zero => simp
  | succ j ih =>
      rw [Function.iterate_succ_apply, ih]
      push_cast
      ring

/-- `zip` only consumes the completed prefix of the longer list. -/
theorem zip_take_eq : ∀ (ps : List Point) (rs : List Outcome),
    rs.length ≤ ps.length → ps.zip rs = (ps.take rs.length).zip rs := by
  intro ps rs
  induction rs generalizing ps with
  | nil => simp
  | cons b rs ih =>
      cases ps with
      | nil => intro h; simp at h
      | cons a ps =>
          intro h
          simp only [List.length_cons, List.take_succ_cons, List.zip_cons_cons]
          rw [ih ps (by simpa using h)]

/-! ## Claim theorems -/

/-- C1 counterexample: the unqualified claim is false of the code.  With
registration succeeding at the first poll but every response carrying a
datatype the registry cannot resolve (`envU`), the non-empty two-point
list `[pA, pB]` yields exactly one submission: the line-98
`raise TypeError` aborts the completion handler before line 118's
`deferred(self.next_request)`, so the second request is never issued,
`response_values` ends empty rather than with two entries, and the loop
is permanently idle — additional fuel changes nothing. -/
theorem c1_counterexample :
    ([pA, pB] : List Point) ≠ []
    ∧ envU.regStatus 0 = 0
    ∧ (runSys envU 10 (initState [pA, pB])).2
        = [.pollSucc, .submit pA, .crash pA]
    ∧ ((runSys envU 10 (initState [pA, pB])).2.filterMap submitOf) = [pA]
    ∧ (runSys envU 10 (initState [pA, pB])).1.response_values = []
    ∧ (runSys envU 10 (initState [pA, pB])).1.idle = true
    ∧ runSys envU 50 (initState [pA, pB])
        = runSys envU 10 (initState [pA, pB]) :=
  ⟨by decide, rfl, rfl, rfl, rfl, rfl, rfl⟩

/-- C1 amended: for every non-empty configured point list, after a
successful registration observation, and provided every completion is
processable (it carries a protocol error or a response whose datatype the
registry resolves — otherwise the handler's raise ends progress early),
the Request Driver issues exactly `len(list)` property-read requests,
strictly one at a time in configured list order (the trace alternates
`submit p, complete p` per point: the Nth submit only occurs after the
(N-1)th completion), and `response_values` ends with `len(list)` entries
index-aligned to the input. -/
theorem c1_sequential_driver (env : Env) (ps : List Point) (k : Nat)
    (_hne : ps ≠ [])
    (hfail : ∀ i, i < k → env.regStatus i ≠ 0)
    (hsucc : env.regStatus k = 0)
    (hk : k < 10)
    (hdec : ∀ p ∈ ps, decodableB env p = true) :
    (runSys env (successFuel k ps) (initState ps)).2 =
        List.replicate k .pollFail ++ [.pollSucc]
          ++ (ps.flatMap fun p => [.submit p, .complete p]) ++ [.stopEvt]
    ∧ ((runSys env (successFuel k ps) (initState ps)).2.filterMap submitOf)
        = ps
    ∧ (runSys env (successFuel k ps) (initState ps)).1.response_values.length
        = ps.length
    ∧ (runSys env (successFuel k ps) (initState ps)).1.response_values
        = ps.map (outcomeOf env) := by
  have h := success_run env ps k hfail hsucc hk hdec
  rw [h]
  refine ⟨by simp [driverTrace, List.append_assoc], ?_, by simp, by simp⟩
  simp [driverTrace, List.filterMap_append, filterMap_submitOf_flat,
    filterMap_submitOf_replicate, submitOf]

/-- C1 witness: the sample's two-point list against an environment whose
registration succeeds at the second poll. -/
theorem c1_witness :
    ([pA, pB] ≠ ([] : List Point))
    ∧ (∀ i, i < 1 → envOk.regStatus i ≠ 0)
    ∧ envOk.regStatus 1 = 0
    ∧ (∀ p ∈ [pA, pB], decodableB envOk p = true)
    ∧ (runSys envOk (successFuel 1 [pA, pB]) (initState [pA, pB])).1.response_values
        = [pA, pB].map (outcomeOf envOk) :=
  ⟨by decide, by decide, by decide, by decide,
   (c1_sequential_driver envOk [pA, pB] 1 (by decide) (by decide) (by decide)
     (by decide) (by decide)).2.2.2⟩

/-- C3: the decode dispatch — an array datatype with explicit index 0
decodes as an unsigned count regardless of the element type; a non-zero
index decodes with the array's `subtype` encoding; a non-array datatype,
or an array response without an index, decodes with the resolved datatype
itself. -/
theorem c3_array_decode (sub : BacDatatype) (i : Nat) (pl : Payload)
    (name : String) (idx : Option Nat) (hi : i ≠ 0) :
    decodeValue (.arrayOf sub) (some 0) pl = cast_out Unsigned pl
    ∧ decodeValue (.arrayOf sub) (some i) pl
        = cast_out (BacDatatype.arrayOf sub).subtype pl
    ∧ decodeValue (.arrayOf sub) none pl = cast_out (.arrayOf sub) pl
    ∧ decodeValue (.atomic name) idx pl = cast_out (.atomic name) pl := by
  refine ⟨rfl, ?_, rfl, ?_⟩
  · simp [decodeValue, BacDatatype.subtype, hi]
  · cases idx <;> rfl

/-- C3 witness: a `priorityArray`-like array of Reals read at index 3. -/
theorem c3_witness :
    (3 : Nat) ≠ 0
    ∧ decodeValue (.arrayOf (.atomic "Real")) (some 0) "pl"
        = cast_out Unsigned "pl"
    ∧ decodeValue (.arrayOf (.atomic "Real")) (some 3) "pl"
        = cast_out (BacDatatype.arrayOf (.atomic "Real")).subtype "pl" :=
  ⟨by decide,
   (c3_array_decode (.atomic "Real") 3 "pl" "Real" (some 3) (by decide)).1,
   (c3_array_decode (.atomic "Real") 3 "pl" "Real" (some 3) (by decide)).2.1⟩

/-- C4: the Request Driver's first turn is scheduled exactly once, only by
the success observation, as a deferred continuation (the success tick
itself emits no submission, only increments the pending-continuation
count and permanently suspends the polling task); in the whole trace no
submission precedes the success observation, the success observation
occurs exactly once, and no poll event follows it. -/
theorem c4_registration_gate (env : Env) (ps : List Point) (k : Nat)
    (hfail : ∀ i, i < k → env.regStatus i ≠ 0)
    (hsucc : env.regStatus k = 0)
    (hk : k < 10)
    (hdec : ∀ p ∈ ps, decodableB env p = true) :
    (∀ s : SysState, s.stopped = false → s.deferredQ = 0 → s.inFlight = [] →
        s.taskActive = true → env.regStatus s.pollCount = 0 →
        sysStep env s =
          ({ s with taskActive := false, deferredQ := 1,
                    pollCount := s.pollCount + 1 }, [.pollSucc]))
    ∧ (∃ pre post,
        (runSys env (successFuel k ps) (initState ps)).2
            = pre ++ Ev.pollSucc :: post
        ∧ (∀ p, Ev.submit p ∉ pre)
        ∧ Ev.pollSucc ∉ pre
        ∧ Ev.pollSucc ∉ post
        ∧ Ev.pollFail ∉ post) := by
  constructor
  · intro s h1 h2 h3 h4 h5
    simp [sysStep, process_task, h1, h2, h3, h4, h5]
  · refine ⟨List.replicate k .pollFail, driverTrace ps, ?_, ?_, ?_, ?_, ?_⟩
    · rw [success_run env ps k hfail hsucc hk hdec]
      simp [List.append_assoc]
    · intro p; exact submit_notin_replicate p k
    · simp [List.mem_replicate]
    · exact pollSucc_notin_driverTrace ps
    · exact pollFail_notin_driverTrace ps

/-- C4 witness: concrete success scenario. -/
theorem c4_witness :
    (∀ i, i < 1 → envOk.regStatus i ≠ 0)
    ∧ envOk.regStatus 1 = 0
    ∧ (∀ p ∈ [pA, pB], decodableB envOk p = true)
    ∧ (∃ pre post,
        (runSys envOk (successFuel 1 [pA, pB]) (initState [pA, pB])).2
            = pre ++ Ev.pollSucc :: post
        ∧ (∀ p, Ev.submit p ∉ pre)
        ∧ Ev.pollSucc ∉ pre
        ∧ Ev.pollSucc ∉ post
        ∧ Ev.pollFail ∉ post) :=
  ⟨by decide, by decide, by decide,
   (c4_registration_gate envOk [pA, pB] 1 (by decide) (by decide) (by decide)
     (by decide)).2⟩

/-- C5: when registration never succeeds, the decay budget (10 polls at
the reference configuration) is exhausted, the run stops with an empty
result list (so strictly fewer results than any non-empty point list),
the `registration failed` diagnostic appears exactly once in the trace,
and the loop makes no further progress with any additional fuel. -/
theorem c5_registration_timeout (env : Env) (ps : List Point)
    (hfail : ∀ i, env.regStatus i ≠ 0) :
    (runSys env 10 (initState ps)).1.stopped = true
    ∧ (runSys env 10 (initState ps)).1.response_values = []
    ∧ (ps ≠ [] →
        (runSys env 10 (initState ps)).1.response_values.length < ps.length)
    ∧ (runSys env 10 (initState ps)).2.count Ev.diag = 1
    ∧ (runSys env 10 (initState ps)).2
        = List.replicate 9 .pollFail ++ [.pollFail, .diag, .stopEvt]
    ∧ (∀ m, runSys env (10 + m) (initState ps) = runSys env 10 (initState ps)) := by
  have h := failure_run env ps hfail
  rw [h]
  refine ⟨rfl, rfl, ?_, ?_, rfl, ?_⟩
  · intro hne
    simpa using List.length_pos.mpr hne
  · simp [List.count_append, List.count_replicate]
  · intro m
    rw [runSys_add, h]
    rw [runSys_idle env m _ (by simp [SysState.idle])]
    simp

/-- C5 witness: an environment that never registers, with the sample's
two-point list. -/
theorem c5_witness :
    (∀ i, envDown.regStatus i ≠ 0)
    ∧ (runSys envDown 10 (initState [pA, pB])).1.response_values = []
    ∧ (runSys envDown 10 (initState [pA, pB])).2.count Ev.diag = 1 :=
  ⟨fun i => by simp [envDown],
   (c5_registration_timeout envDown [pA, pB] (fun i => by simp [envDown])).2.1,
   (c5_registration_timeout envDown [pA, pB] (fun i => by simp [envDown])).2.2.2.1⟩

/-- C6 counterexample: the claim says the decay budget is initialised to
the integer `floor(fixedTimeoutMs / pollIntervalMs)`.  The code computes
`5 * 1000 / interval` with true division: at a 300 ms interval this is
`50/3`, not `floor(5000/300) = 16`, and after 16 decrements the counter
is `2/3`, not zero — so the budget neither starts at the floor nor
reaches zero after floor-many polls. -/
theorem c6_counterexample :
    decayInit 300 ≠ ((⌊(5 * 1000 : ℚ) / 300⌋ : ℤ) : ℚ)
    ∧ (⌊(5 * 1000 : ℚ) / 300⌋ : ℤ) = 16
    ∧ (fun d : ℚ => d - 1)^[16] (decayInit 300) ≠ 0 := by
  refine ⟨?_, by norm_num, ?_⟩
  · norm_num [decayInit]
  · rw [iterate_sub_one]
    norm_num [decayInit]

/-- C6 amended: the budget is the exact (true-division) quotient
`5 * 1000 / interval`; whenever the interval divides 5000 ms evenly —
in particular the reference 500 ms interval, giving exactly 10 — this
coincides with the integer floor and the once-per-poll decrement reaches
zero after exactly that many polls and not before. -/
theorem c6_decay_budget (m : Nat) (hm : 0 < m) (hdvd : m ∣ 5000) :
    decayInit 500 = 10
    ∧ decayInit m = ((5000 / m : ℕ) : ℚ)
    ∧ (fun d : ℚ => d - 1)^[5000 / m] (decayInit m) = 0
    ∧ (∀ j, j < 5000 / m → (fun d : ℚ => d - 1)^[j] (decayInit m) ≠ 0) := by
  have hm0 : (m : ℚ) ≠ 0 := Nat.cast_ne_zero.mpr hm.ne'
  have hq : decayInit m = ((5000 / m : ℕ) : ℚ) := by
    rw [Nat.cast_div hdvd hm0]
    simp [decayInit]
    norm_num
  refine ⟨by norm_num [decayInit], hq, ?_, ?_⟩
  · rw [iterate_sub_one, hq]
    ring
  · intro j hj
    rw [iterate_sub_one, hq]
    have : (j : ℚ) < ((5000 / m : ℕ) : ℚ) := by exact_mod_cast hj
    intro hcon
    have : ((5000 / m : ℕ) : ℚ) = (j : ℚ) := by linarith
    simp at this
    omega

/-- C6 witness: the reference 500 ms interval. -/
theorem c6_witness :
    (0 < (500 : Nat)) ∧ (500 : Nat) ∣ 5000
    ∧ decayInit 500 = 10
    ∧ (fun d : ℚ => d - 1)^[5000 / 500] (decayInit 500) = 0 :=
  ⟨by decide, by decide,
   (c6_decay_budget 500 (by decide) (by decide)).1,
   (c6_decay_budget 500 (by decide) (by decide)).2.2.1⟩

/-- C2 counterexample: the claim says an unresolvable datatype is recorded
as a `ProtocolError` outcome and processing continues.  In the code,
`complete_request` instead executes `raise TypeError("unknown datatype")`
(line 98): at the concrete unresolvable response `apduU`, the handler
aborts exceptionally, records nothing, and — since the `raise` precedes
`deferred(self.next_request)` — schedules no further advance. -/
theorem c2_counterexample :
    complete_request regAV (.response apduU) [] = .error "unknown datatype"
    ∧ (deliverCompletion envU sC2).1.response_values = []
    ∧ (deliverCompletion envU sC2).1.deferredQ = 0
    ∧ (deliverCompletion envU sC2).2 = [.crash pA] :=
  ⟨rfl, rfl, rfl, rfl⟩

/-- C2 amended: for every completion carrying a successful application
response whose `(object-type, property-id)` pair the registry cannot
resolve, the completion handler raises `TypeError("unknown datatype")`:
no outcome of any kind is recorded for that point and the next advance is
not scheduled (the run does not continue past the raising handler). -/
theorem c2_unknown_datatype (reg : Registry) (apdu : APDU)
    (rv : List Outcome)
    (h : reg apdu.objectType apdu.propertyIdentifier = none) :
    complete_request reg (.response apdu) rv = .error "unknown datatype"
    ∧ (∀ rv2, complete_request reg (.response apdu) rv ≠ .ok rv2) := by
  have h1 : complete_request reg (.response apdu) rv
      = .error "unknown datatype" := by
    simp [complete_request, h]
  exact ⟨h1, fun rv2 hcon => by rw [h1] at hcon; exact Except.noConfusion hcon⟩

/-- C2 witness: the unresolvable response `apduU` against `regAV`. -/
theorem c2_witness :
    regAV apduU.objectType apduU.propertyIdentifier = none
    ∧ complete_request regAV (.response apduU) [] = .error "unknown datatype" :=
  ⟨by decide, (c2_unknown_datatype regAV apduU [] (by decide)).1⟩

/-- C7 counterexample: the claim says every completed request/response
cycle appends exactly one outcome.  At a completion carrying a response
with an unresolvable datatype, the handler raises instead: the request
completes (it leaves the in-flight set) yet `response_values` gains no
entry, so `len(ResultQueue)` no longer equals the number of completed
requests. -/
theorem c7_counterexample :
    (deliverCompletion envU sC7).1.inFlight = []
    ∧ (deliverCompletion envU sC7).1.response_values = []
    ∧ (deliverCompletion envU sC7).2 = [.crash pA] :=
  ⟨rfl, rfl, rfl⟩

/-- C7 amended: every completion that carries a protocol error, or a
successful response whose datatype the registry resolves, appends exactly
one outcome (one of `DecodedValue` or `ProtocolError`) to
`response_values`; and at the end of a clean run — registration succeeds
within budget and every completion is so processable — the result count
equals the length of the original point list. -/
theorem c7_one_outcome_per_completion (env : Env) (p : Point)
    (rv : List Outcome) (h : decodableB env p = true) :
    complete_request env.get_datatype (env.respond p) rv
        = .ok (rv ++ [outcomeOf env p])
    ∧ (rv ++ [outcomeOf env p]).length = rv.length + 1
    ∧ ((∃ v, outcomeOf env p = .decodedValue v)
        ∨ (∃ e, outcomeOf env p = .protocolError e))
    ∧ (∀ ps k, (∀ i, i < k → env.regStatus i ≠ 0) → env.regStatus k = 0 →
        k < 10 → (∀ q ∈ ps, decodableB env q = true) →
        (runSys env (successFuel k ps) (initState ps)).1.response_values.length
          = ps.length) := by
  refine ⟨complete_request_ok env p rv h, by simp, ?_, ?_⟩
  · cases hout : outcomeOf env p with
    | decodedValue v => exact .inl ⟨v, rfl⟩
    | protocolError e => exact .inr ⟨e, rfl⟩
  · intro ps k hfail hsucc hk hdec
    rw [success_run env ps k hfail hsucc hk hdec]
    simp

/-- C7 witness: a resolvable completion appended to an empty queue, and
the clean two-point run ending with two results. -/
theorem c7_witness :
    decodableB envOk pA = true
    ∧ complete_request envOk.get_datatype (envOk.respond pA) []
        = .ok [outcomeOf envOk pA]
    ∧ (runSys envOk (successFuel 1 [pA, pB]) (initState [pA, pB])).1.response_values.length
        = 2 :=
  ⟨by decide,
   (c7_one_outcome_per_completion envOk pA [] (by decide)).1,
   (c7_one_outcome_per_completion envOk pA [] (by decide)).2.2.2
     [pA, pB] 1 (by decide) (by decide) (by decide) (by decide)⟩

/-- C8: a completion carrying a protocol-level error appends exactly the
error as a `ProtocolError` outcome (never a `DecodedValue`), leaves the
pending queue untouched (no retry), and still schedules the next advance
(`deferredQ` grows by one), so processing of subsequent points is not
halted. -/
theorem c8_protocol_error_completion (env : Env) (s : SysState) (p : Point)
    (rest : List Point) (e : ErrDesc)
    (hres : env.respond p = .ioErr e) (hif : s.inFlight = p :: rest) :
    complete_request env.get_datatype (.ioErr e) s.response_values
        = .ok (s.response_values ++ [.protocolError e])
    ∧ deliverCompletion env s =
        ({ s with inFlight := rest,
                  response_values := s.response_values ++ [.protocolError e],
                  deferredQ := s.deferredQ + 1 }, [.complete p])
    ∧ (∀ v : DecodedVal,
        (deliverCompletion env s).1.response_values
          ≠ s.response_values ++ [.decodedValue v]) := by
  have h1 : complete_request env.get_datatype (.ioErr e) s.response_values
      = .ok (s.response_values ++ [.protocolError e]) := by
    simp [complete_request]
  have h2 : deliverCompletion env s =
      ({ s with inFlight := rest,
                response_values := s.response_values ++ [.protocolError e],
                deferredQ := s.deferredQ + 1 }, [.complete p]) := by
    simp [deliverCompletion, hif, hres, h1]
  refine ⟨h1, h2, ?_⟩
  intro v hcon
  rw [h2] at hcon
  simp at hcon

/-- C8 witness: an all-errors environment completing `pA`. -/
theorem c8_witness :
    envErr.respond pA = .ioErr "abort(noResponse)"
    ∧ sC7.inFlight = [pA]
    ∧ deliverCompletion envErr sC7 =
        ({ sC7 with inFlight := [],
                    response_values := [.protocolError "abort(noResponse)"],
                    deferredQ := 1 }, [.complete pA]) :=
  ⟨rfl, rfl, by
    have h := (c8_protocol_error_completion envErr sC7 pA []
      "abort(noResponse)" rfl rfl).2.1
    simpa [sC7] using h⟩

/-- C9 counterexample: the claim says a re-entrant `advance()` while a
request is in flight is detected and aborts loudly.  In the code,
`next_request` has no guard: from `sReent` (where `pA` is awaiting its
response) it silently dequeues `pB` and submits it, leaving two requests
concurrently in flight and emitting no error of any kind. -/
theorem c9_counterexample :
    next_request sReent =
      (⟨[], [], [pA, pB], false, 9, 3, 0, false⟩, [.submit pB]) := rfl

/-- C9 amended: `next_request` contains no re-entry guard: whatever is in
flight, with a non-empty queue it dequeues the head and submits it — a
re-entrant call is silently tolerated and results in a second concurrent
request; the single-flight discipline rests entirely on the scheduler
invoking `next_request` exactly once per completion or registration
hand-off. -/
theorem c9_no_reentry_guard (s : SysState) (p : Point) (rest : List Point)
    (hq : s.point_queue = p :: rest) (_hflight : s.inFlight ≠ []) :
    next_request s =
      ({ s with point_queue := rest, inFlight := s.inFlight ++ [p] },
       [.submit p])
    ∧ ((next_request s).1.inFlight.length = s.inFlight.length + 1) := by
  have h1 : next_request s =
      ({ s with point_queue := rest, inFlight := s.inFlight ++ [p] },
       [.submit p]) := by
    simp [next_request, hq]
  exact ⟨h1, by rw [h1]; simp⟩

/-- C9 witness: the awaiting state `sReent`. -/
theorem c9_witness :
    sReent.point_queue = [pB]
    ∧ sReent.inFlight ≠ []
    ∧ (next_request sReent).1.inFlight.length = sReent.inFlight.length + 1 :=
  ⟨rfl, by decide,
   (c9_no_reentry_guard sReent pB [] rfl (by decide)).2⟩

/-- C10: the final dump pairs the original point list positionally with
the result list: it emits `min` of the two lengths many lines (hence one
line per completed point), each line pairing the i-th point with the i-th
outcome; when the result list is the shorter one only that completed
prefix of the point list is consumed — `dumpResults` is a total function,
a short result list is not an error. -/
theorem c10_result_dump (ps : List Point) (rs : List Outcome) :
    (dumpResults ps rs).length = min ps.length rs.length
    ∧ (∀ (i : Nat) (a : Point) (b : Outcome), ps[i]? = some a →
        rs[i]? = some b → (dumpResults ps rs)[i]? = some (a, b))
    ∧ (rs.length ≤ ps.length →
        dumpResults ps rs = (ps.take rs.length).zip rs)
    ∧ (rs.length ≤ ps.length → (dumpResults ps rs).length = rs.length) := by
  refine ⟨List.length_zip ps rs, ?_, zip_take_eq ps rs, ?_⟩
  · intro i a b ha hb
    simp [dumpResults, List.getElem?_zip_eq_some, ha, hb]
  · intro h
    rw [dumpResults, List.length_zip]
    omega

/-- C10 witness: a two-point list with a single completed result. -/
theorem c10_witness :
    ([pA, pB] : List Point)[0]? = some pA
    ∧ ([Outcome.protocolError "e"] : List Outcome)[0]? = some (.protocolError "e")
    ∧ (dumpResults [pA, pB] [.protocolError "e"])[0]?
        = some (pA, .protocolError "e")
    ∧ (dumpResults [pA, pB] [.protocolError "e"]).length = 1 :=
  ⟨rfl, rfl,
   (c10_result_dump [pA, pB] [.protocolError "e"]).2.1 0 pA
     (.protocolError "e") rfl rfl,
   (c10_result_dump [pA, pB] [.protocolError "e"]).2.2.2 (by decide)⟩

end MRPF
